import Mathlib

/-!
# Verification of the asuka-datacleaning radar/image log pipeline

Shallow embedding of the core of `updatedDataCleaning.py` (the canonical
pipeline: `parse_line`, `read_logs_from_folder`, `filter_radar_entries`,
`compare_radar_image`) and of the superseded variant `DataCleaning.py`
(`filter_radar_data`, `sort_entries`), together with theorems settling the
specification claims.

Modelling conventions:
* Machine integers of the Python code are `Int` (Python ints are unbounded).
* A Python value that may be `None` (or pandas `NaN`) is `Option Int`.
* Timestamps are `Nat` (compared by equality and ordered, exactly as the
  parsed datetimes are in the code).
* Python exceptions are `Except` errors; `sys.exit(1)` is an `Except` error
  of the whole run.
* The regex layer of `parse_line` / the line classifiers is represented by
  the input types `LineView` / `LogLine` / `DCLine`: each carries the match
  results of the fixed regular expressions the code applies to a raw line.
-/

namespace AsukaDC

/-- Timestamps; `pd.to_datetime` values compared by equality and ordered. -/
abbrev Timestamp := Nat

/-- The fields of a radar detection dict built by `parse_line`
(lines 55-64 of updatedDataCleaning.py), before the `time` key is added. -/
structure RadarObj where
  x : Option Int
  y : Option Int
  confidence : Option Int
  distance : Option Int
  theta : Option Int
  velocity : Option Int
  power : Option Int
deriving DecidableEq

/-- The fields of an image detection dict built by `parse_line`
(lines 89-98 of updatedDataCleaning.py), before the `time` key is added. -/
structure ImageObj where
  x : Option Int
  y : Option Int
  confidence : Option Int
  left : Option Int
  top : Option Int
  width : Option Int
  height : Option Int
deriving DecidableEq

/-- A radar record as it sits in `df_radar`: the parsed dict plus the
`time` value attached by `read_logs_from_folder` (line 120). -/
structure RadarRec where
  time : Timestamp
  x : Option Int
  y : Option Int
  confidence : Option Int
  distance : Option Int
  theta : Option Int
  velocity : Option Int
  power : Option Int
deriving DecidableEq

/-- An image record as it sits in `df_image`. -/
structure ImageRec where
  time : Timestamp
  x : Option Int
  y : Option Int
  confidence : Option Int
  left : Option Int
  top : Option Int
  width : Option Int
  height : Option Int
deriving DecidableEq

/-! ## pandas element-wise comparisons against a scalar

`read_logs_from_folder` stores missing fields as Python `None`; building the
`DataFrame` turns them into `NaN` in an otherwise-numeric column.  For both
`NaN` and `None`, Python/pandas element-wise comparisons behave the same way:
ordering comparisons with a number are `False`, `== n` is `False`, and
`!= n` is `True`.  (`NaN` compares unequal to everything; an all-`None`
object column would raise on `<`, which no claim exercises.) -/

/-- pandas `series < b` on one element (`NaN < b` is `False`). -/
def naLt (a : Option Int) (b : Int) : Bool :=
  match a with
  | some v => decide (v < b)
  | none => false

/-- pandas `series > b` on one element. -/
def naGt (a : Option Int) (b : Int) : Bool :=
  match a with
  | some v => decide (b < v)
  | none => false

/-- pandas `series >= b` on one element. -/
def naGe (a : Option Int) (b : Int) : Bool :=
  match a with
  | some v => decide (b ≤ v)
  | none => false

/-- pandas `series <= b` on one element. -/
def naLe (a : Option Int) (b : Int) : Bool :=
  match a with
  | some v => decide (v ≤ b)
  | none => false

/-- pandas `series != b` on one element: `NaN != b` is `True`. -/
def naNe (a : Option Int) (b : Int) : Bool :=
  match a with
  | some v => decide (v ≠ b)
  | none => true

/-- pandas `series == b` on one element: `NaN == b` is `False`. -/
def naEq (a : Option Int) (b : Int) : Bool :=
  match a with
  | some v => decide (v = b)
  | none => false

/-! ## RadarCategorizer: `filter_radar_entries` (updatedDataCleaning.py 165-184) -/

/-- Line 172: `df_radar[(df_radar['y'] < 20) & (df_radar['velocity'] != 0)]`. -/
def cat1Filter (df : List RadarRec) : List RadarRec :=
  df.filter fun r => naLt r.y 20 && naNe r.velocity 0

/-- Line 173: `(y >= 20) & (y <= 80) & (velocity != 0)`. -/
def cat2Filter (df : List RadarRec) : List RadarRec :=
  df.filter fun r => naGe r.y 20 && naLe r.y 80 && naNe r.velocity 0

/-- Line 174: `(y > 80) & (velocity != 0)`. -/
def cat3Filter (df : List RadarRec) : List RadarRec :=
  df.filter fun r => naGt r.y 80 && naNe r.velocity 0

/-- Line 175: `(x == 0) & (y == 0) & (velocity == 0)`. -/
def cat4Filter (df : List RadarRec) : List RadarRec :=
  df.filter fun r => naEq r.x 0 && naEq r.y 0 && naEq r.velocity 0

/-- Result of `filter_radar_entries`: the code returns the integer `0` when
the frame is empty (line 168), otherwise the labelled dict of the four
category frames (lines 177-182). `noData` models the `return 0`. -/
inductive FilterResult where
  | noData
  | categories (entries : List (String × List RadarRec))
deriving DecidableEq

/-- `filter_radar_entries` (updatedDataCleaning.py lines 165-184). -/
def filter_radar_entries (df : List RadarRec) : FilterResult :=
  if df.isEmpty then FilterResult.noData
  else
    FilterResult.categories
      [("Category 1 (y < 20 and velocity ≠ 0)", cat1Filter df),
       ("Category 2 (20 ≤ y ≤ 80 and velocity ≠ 0)", cat2Filter df),
       ("Category 3 (y > 80 and velocity ≠ 0)", cat3Filter df),
       ("Category 4 (x = 0, y = 0, and velocity = 0)", cat4Filter df)]

/-! ## RecordParser: `parse_line` (updatedDataCleaning.py 14-98)

The regex layer is the input boundary of the embedding: a `LineView` carries,
for one raw line, the data the fixed regular expressions of `parse_line`
extract from it. -/

/-- View of one log line after the regex layer of `parse_line`:
* `hasRadarMarker` / `hasImageMarker`: the substring tests
  `"BsdRadarObjInfo" in line` / `"BsdImageObjInfo" in line` (lines 16-18);
* `xMatch`, `yMatch`, `confMatch`: results of
  `re.search(r"x=(-?\d+)")`, `y=(-?\d+)`, `confidence=(\d+)` (lines 24-30);
* `rawBlock`: the group captured by the branch-appropriate raw-struct
  pattern `raw=Bsd(Radar|Image)ObjRaw\s*` followed by a braced `[^}]*`
  group (lines 39 and 73), `none` when the pattern does not occur. -/
structure LineView where
  hasRadarMarker : Bool
  hasImageMarker : Bool
  xMatch : Option Int
  yMatch : Option Int
  confMatch : Option Int
  rawBlock : Option String
deriving DecidableEq

/-- Python `str.split(sep)` (single-character separator), accumulator form:
`"".split(",") = [""]`, and every separator occurrence opens a new piece. -/
def pySplitAux (sep : Char) : List Char → List Char → List String
  | [], acc => [String.mk acc.reverse]
  | c :: cs, acc =>
    if c = sep then String.mk acc.reverse :: pySplitAux sep cs []
    else pySplitAux sep cs (c :: acc)

/-- Python `s.split(sep)` for a one-character separator. -/
def pySplit (s : String) (sep : Char) : List String :=
  pySplitAux sep s.toList []

/-- Python `s.strip()`: drop whitespace from both ends. -/
def pyStrip (s : String) : String :=
  String.mk
    (((s.toList.dropWhile Char.isWhitespace).reverse.dropWhile
      Char.isWhitespace).reverse)

/-- Value of a digit string. -/
def digitsToNat (ds : List Char) : Nat :=
  ds.foldl (fun n c => 10 * n + (c.toNat - Char.toNat '0')) 0

/-- Python `int(s)` on an already-stripped token: an optional sign followed
by one or more digits; anything else raises `ValueError`, modelled `none`. -/
def pyIntChars : List Char → Option Int
  | [] => none
  | '-' :: ds =>
    if ds.isEmpty then none
    else if ds.all Char.isDigit then some (-(digitsToNat ds : Int)) else none
  | '+' :: ds =>
    if ds.isEmpty then none
    else if ds.all Char.isDigit then some (digitsToNat ds : Int) else none
  | ds =>
    if ds.all Char.isDigit then some (digitsToNat ds : Int) else none

/-- Python `int(s)` on a stripped string. -/
def pyInt (s : String) : Option Int :=
  pyIntChars s.toList

/-- Python `s.endswith(suffix)`. -/
def pyEndsWith (s suffix : String) : Bool :=
  suffix.toList.isSuffixOf s.toList

/-- `k, v = f.split("=")` followed by `k.strip(), v.strip()` (lines 44-45):
the tuple unpacking raises `ValueError` (modelled `none`) unless the split
has exactly two parts. -/
def splitKV (f : String) : Option (String × String) :=
  match pySplit f '=' with
  | [k, v] => some (pyStrip k, pyStrip v)
  | _ => none

/-- The four radar raw locals of lines 34-37. -/
structure RadarRaw where
  distance : Option Int
  theta : Option Int
  velocity : Option Int
  power : Option Int
deriving DecidableEq

/-- The four image raw locals of lines 68-71. -/
structure ImageRaw where
  left : Option Int
  top : Option Int
  width : Option Int
  height : Option Int
deriving DecidableEq

/-- One iteration of the loop body of lines 43-53: unpack `k=v`, and on a
recognized key convert the value with `int` — either step may raise
`ValueError`, which nothing in the file catches. -/
def radarRawStep (st : RadarRaw) (f : String) : Except Unit RadarRaw :=
  match splitKV f with
  | none => .error ()
  | some (k, w) =>
    if k = "distance" then
      match pyInt w with
      | some n => .ok ⟨some n, st.theta, st.velocity, st.power⟩
      | none => .error ()
    else if k = "theta" then
      match pyInt w with
      | some n => .ok ⟨st.distance, some n, st.velocity, st.power⟩
      | none => .error ()
    else if k = "velocity" then
      match pyInt w with
      | some n => .ok ⟨st.distance, st.theta, some n, st.power⟩
      | none => .error ()
    else if k = "power" then
      match pyInt w with
      | some n => .ok ⟨st.distance, st.theta, st.velocity, some n⟩
      | none => .error ()
    else .ok st

/-- The `for f in fields:` loop of lines 43-53; an exception aborts it. -/
def radarRawLoop : List String → RadarRaw → Except Unit RadarRaw
  | [], st => .ok st
  | f :: fs, st =>
    match radarRawStep st f with
    | .ok st2 => radarRawLoop fs st2
    | .error e => .error e

/-- One iteration of the loop body of lines 77-87 (image branch). -/
def imageRawStep (st : ImageRaw) (f : String) : Except Unit ImageRaw :=
  match splitKV f with
  | none => .error ()
  | some (k, w) =>
    if k = "left" then
      match pyInt w with
      | some n => .ok ⟨some n, st.top, st.width, st.height⟩
      | none => .error ()
    else if k = "top" then
      match pyInt w with
      | some n => .ok ⟨st.left, some n, st.width, st.height⟩
      | none => .error ()
    else if k = "width" then
      match pyInt w with
      | some n => .ok ⟨st.left, st.top, some n, st.height⟩
      | none => .error ()
    else if k = "height" then
      match pyInt w with
      | some n => .ok ⟨st.left, st.top, st.width, some n⟩
      | none => .error ()
    else .ok st

/-- The `for f in fields:` loop of lines 77-87; an exception aborts it. -/
def imageRawLoop : List String → ImageRaw → Except Unit ImageRaw
  | [], st => .ok st
  | f :: fs, st =>
    match imageRawStep st f with
    | .ok st2 => imageRawLoop fs st2
    | .error e => .error e

/-- `fields = [item.strip() for item in raw_content.split(",")]` (line 42). -/
def rawFields (raw : String) : List String :=
  (pySplit raw ',').map pyStrip

/-- What `parse_line` hands back: the empty dict `{}` for unrecognized
lines, or a typed radar/image record. -/
inductive ParseResult where
  | empty
  | radar (o : RadarObj)
  | image (o : ImageObj)
deriving DecidableEq

/-- `parse_line` (updatedDataCleaning.py lines 14-98).  The `Except` error
is an uncaught `ValueError` escaping the raw-block loop; there is no
handler anywhere in the file, so it propagates to the caller. -/
def parse_line (lv : LineView) : Except Unit ParseResult :=
  if lv.hasRadarMarker then
    match lv.rawBlock with
    | some raw => do
      let rr ← radarRawLoop (rawFields raw) ⟨none, none, none, none⟩
      .ok (ParseResult.radar
        ⟨lv.xMatch, lv.yMatch, lv.confMatch,
         rr.distance, rr.theta, rr.velocity, rr.power⟩)
    | none =>
      .ok (ParseResult.radar
        ⟨lv.xMatch, lv.yMatch, lv.confMatch, none, none, none, none⟩)
  else if lv.hasImageMarker then
    match lv.rawBlock with
    | some raw => do
      let ir ← imageRawLoop (rawFields raw) ⟨none, none, none, none⟩
      .ok (ParseResult.image
        ⟨lv.xMatch, lv.yMatch, lv.confMatch,
         ir.left, ir.top, ir.width, ir.height⟩)
    | none =>
      .ok (ParseResult.image
        ⟨lv.xMatch, lv.yMatch, lv.confMatch, none, none, none, none⟩)
  else .ok ParseResult.empty

/-! ## LogIngestor: `read_logs_from_folder` (updatedDataCleaning.py 100-128) -/

/-- One stripped line of a log file, after the classification the ingest
loop performs: blank (`if not line: continue`), a line matching the
timestamp pattern of line 115 (carrying the parsed timestamp), or any
other line, carried as the `LineView` handed to `parse_line`. -/
inductive LogLine where
  | blank
  | tsLine (t : Timestamp)
  | dataLine (v : LineView)
deriving DecidableEq

/-- Attach the current time to a radar dict (line 120). -/
def mkRadarRec (t : Timestamp) (o : RadarObj) : RadarRec :=
  ⟨t, o.x, o.y, o.confidence, o.distance, o.theta, o.velocity, o.power⟩

/-- Attach the current time to an image dict. -/
def mkImageRec (t : Timestamp) (o : ImageObj) : ImageRec :=
  ⟨t, o.x, o.y, o.confidence, o.left, o.top, o.width, o.height⟩

/-- The per-file loop of lines 110-124: `current_time` starts as `None`,
a timestamp line replaces it, and a parsed record is appended only when
both the record and `current_time` are truthy
(`if record and current_time:`).  A `ValueError` out of `parse_line`
propagates (there is no handler in the loop). -/
def processLines : List LogLine → Option Timestamp →
    Except Unit (List RadarRec × List ImageRec)
  | [], _ => .ok ([], [])
  | LogLine.blank :: ls, c => processLines ls c
  | LogLine.tsLine t :: ls, _ => processLines ls (some t)
  | LogLine.dataLine v :: ls, c =>
    match parse_line v with
    | .error e => .error e
    | .ok pr =>
      match processLines ls c with
      | .error e => .error e
      | .ok (rs, imgs) =>
        match pr, c with
        | ParseResult.radar o, some t => .ok (mkRadarRec t o :: rs, imgs)
        | ParseResult.image o, some t => .ok (rs, mkImageRec t o :: imgs)
        | _, _ => .ok (rs, imgs)

/-- A file of the input folder: its name and the outcome of opening and
reading it (`.error` models an `OSError` from `open`/`read`). -/
structure LogFile where
  name : String
  content : Except Unit (List LogLine)

/-- The folder loop of lines 104-124: only names ending in `".txt"` are
read, each file starts over with `current_time = None`, and the two record
lists are the concatenation over files.  Any exception (file read, parse)
propagates: the loop has no handler. -/
def readFolderLoop : List LogFile → Except Unit (List RadarRec × List ImageRec)
  | [] => .ok ([], [])
  | f :: fs =>
    if pyEndsWith f.name ".txt" then
      match f.content with
      | .error e => .error e
      | .ok lines =>
        match processLines lines none with
        | .error e => .error e
        | .ok (rs, imgs) =>
          match readFolderLoop fs with
          | .error e => .error e
          | .ok (rs2, imgs2) => .ok (rs ++ rs2, imgs ++ imgs2)
    else readFolderLoop fs

/-- `read_logs_from_folder` (lines 100-128).  `none` for the folder models
a missing input folder, on which `os.listdir` raises (fatal). -/
def read_logs_from_folder :
    Option (List LogFile) → Except Unit (List RadarRec × List ImageRec)
  | none => .error ()
  | some files => readFolderLoop files

/-! ## CrossSensorMatcher: `compare_radar_image` (updatedDataCleaning.py 194-276) -/

/-- Line 215: `unique_times = sorted(df_radar['time'].unique())` —
the distinct radar timestamps, ascending.  Python's `sorted` is rendered
as insertion sort; on a duplicate-free list every comparison sort yields
the same ascending result. -/
def uniqueTimes (radar : List RadarRec) : List Timestamp :=
  ((radar.map RadarRec.time).dedup).insertionSort (· ≤ ·)

/-- Line 224: `df_radar[df_radar['time'] == t]`. -/
def radarAt (radar : List RadarRec) (t : Timestamp) : List RadarRec :=
  radar.filter fun r => r.time == t

/-- Line 225: `df_image[df_image['time'] == t]`. -/
def imageAt (image : List ImageRec) (t : Timestamp) : List ImageRec :=
  image.filter fun i => i.time == t

/-- pandas equality on two possibly-missing `to_dict` values: a missing
field is stored as `NaN` whenever its column holds any number, and
`nan == nan` is `False`, so a comparison involving a missing field is
never true.  (The degenerate all-`None` object column, where Python would
compare `None == None` as `True`, is — like the categorizer's ordering
corner — a documented boundary, not modelled.) -/
def naEqv (a b : Option Int) : Bool :=
  match a, b with
  | some x, some y => decide (x = y)
  | _, _ => false

/-- Lines 237-241: one radar row matches one image row when `x`, `y` and
`confidence` are all equal, under the pandas missing-value semantics of
`naEqv` (a null field never matches anything, itself included). -/
def matchPred (r : RadarRec) (i : ImageRec) : Bool :=
  naEqv r.x i.x && naEqv r.y i.y && naEqv r.confidence i.confidence

/-- Lines 232-250: `all_radar_matched` combined with `len(radar_rows) > 0`
— the condition under which the time-frame at `t` is appended to
`matched_timeframes`. -/
def frameMatched (radar : List RadarRec) (image : List ImageRec)
    (t : Timestamp) : Bool :=
  (radarAt radar t).all (fun r => (imageAt image t).any fun i => matchPred r i)
    && decide (0 < (radarAt radar t).length)

/-- The dict appended at lines 253-257 / 260-264: the whole time-frame. -/
structure TimeFrame where
  time : Timestamp
  radar_data : List RadarRec
  image_data : List ImageRec
deriving DecidableEq

/-- The time-frame assembled for timestamp `t` (radar and image subsets at
that exact time). -/
def mkFrame (radar : List RadarRec) (image : List ImageRec)
    (t : Timestamp) : TimeFrame :=
  ⟨t, radarAt radar t, imageAt image t⟩

/-- Everything `compare_radar_image` produces: the two time-frame lists,
the two counters, and the printed percentage. -/
structure CompareResult where
  matched : List TimeFrame
  unmatched : List TimeFrame
  total_radar_count : Nat
  matched_radar_count : Nat
  overall_match_percentage : Rat
deriving DecidableEq

/-- `compare_radar_image` (lines 194-276).  The `for t in unique_times`
loop, which appends each frame to exactly one of the two lists and adds
`len(radar_rows)` to the counters, is rendered as `filterMap`/`sum` over
the iterated timestamps; lines 267-270 compute the percentage. -/
def compare_radar_image (radar : List RadarRec) (image : List ImageRec) :
    CompareResult :=
  let times := uniqueTimes radar
  let matched := times.filterMap fun t =>
    if frameMatched radar image t then some (mkFrame radar image t) else none
  let unmatched := times.filterMap fun t =>
    if frameMatched radar image t then none else some (mkFrame radar image t)
  let total := (times.map fun t => (radarAt radar t).length).sum
  let mc := (times.map fun t =>
    if frameMatched radar image t then (radarAt radar t).length else 0).sum
  let pct : Rat := if 0 < total then ((mc : Rat) / (total : Rat)) * 100 else 0
  ⟨matched, unmatched, total, mc, pct⟩

/-! ## Superseded variant: `filter_radar_data` (DataCleaning.py 6-125)

The categorized entries are tuples `(y, current_timestamp, obj_info)`
(lines 72-89); the dict is string-keyed, and a lookup of an absent key
raises `KeyError`.  The per-file `try`/`except` (lines 39-95) swallows any
exception and continues with the next file, keeping the dict mutations
made before the exception. -/

/-- One appended tuple `(y, current_timestamp, f"BsdRadarObjInfo ...")`:
the `y` value, the timestamp string, and the object-info text. -/
abbrev DCTuple := Int × String × String

/-- One `BsdRadarObjInfo` brace group found on a line (line 53): the raw
captured text and, when `pattern.search` succeeds, the extracted
`(x, y, velocity)` integers (line 13 regex); `none` models a search miss
(warning, entry skipped, line 91). -/
structure DCEntry where
  raw : String
  parsed : Option (Int × Int × Int)
deriving DecidableEq

/-- One stripped line as the DataCleaning.py loop classifies it: blank,
timestamp (line 47 regex, carrying the matched string), or an object line
carrying its `re.findall` results (an empty list models "no
BsdRadarObjInfo found": warning, line skipped). -/
inductive DCLine where
  | blank
  | tsLine (t : String)
  | objLine (entries : List DCEntry)
deriving DecidableEq

/-- A file of the DataCleaning.py input folder. -/
structure DCFile where
  name : String
  content : Except Unit (List DCLine)

/-- The string-keyed dict of categorized entry lists. -/
abbrev DCDict := List (String × List DCTuple)

/-- Initialization key of line 17. -/
def dcKeyCat1 : String := "Category 1 (y < 20 and velocity ≠ 0)"

/-- The different key used by the Category 1 append at line 72. -/
def dcKeyCat1Append : String := "Category 1 (0 < y < 20 and velocity ≠ 0)"

/-- Key of lines 18 and 77. -/
def dcKeyCat2 : String := "Category 2 (20 ≤ y ≤ 80 and velocity ≠ 0)"

/-- Key of lines 19 and 82. -/
def dcKeyCat3 : String := "Category 3 (y > 80 and velocity ≠ 0)"

/-- Key of lines 20, 87 and 103. -/
def dcKeyCat4 : String := "Category 4 (x = 0, y = 0, and velocity = 0)"

/-- The dict initialized at lines 16-21. -/
def dcInit : DCDict :=
  [(dcKeyCat1, []), (dcKeyCat2, []), (dcKeyCat3, []), (dcKeyCat4, [])]

/-- Python dict indexing `d[key]`: the value under the first matching
key, `none` when the key is absent (a `KeyError` at use sites). -/
def dcGet (d : DCDict) (key : String) : Option (List DCTuple) :=
  match d with
  | [] => none
  | (k, v) :: rest => if k = key then some v else dcGet rest key

/-- `filtered_entries[key].append(v)`: raises `KeyError` when the key is
absent (the error carries no state change — the lookup fails before any
mutation), otherwise appends to that key's list in place. -/
def dcAppend (d : DCDict) (key : String) (v : DCTuple) : Except Unit DCDict :=
  if (dcGet d key).isSome then
    .ok (d.map fun p => if p.1 = key then (p.1, p.2 ++ [v]) else p)
  else .error ()

/-- One conditional append (the four `if condition_catN:` blocks).  An
exception carries the dict as it stands when it is raised, since the
per-file handler keeps all mutations made before the exception. -/
def dcStep (d : DCDict) (cond : Bool) (key : String) (v : DCTuple) :
    Except DCDict DCDict :=
  if cond then
    match dcAppend d key v with
    | .ok d2 => .ok d2
    | .error _ => .error d
  else .ok d

/-- Lines 58-91: process one found entry — extract `(x, y, velocity)` when
the inner pattern matches, evaluate the four category conditions
(lines 66-69) and perform the four conditional appends (lines 71-89). -/
def dcProcessEntry (d : DCDict) (ts : String) (e : DCEntry) :
    Except DCDict DCDict :=
  match e.parsed with
  | none => .ok d
  | some (x, y, vel) =>
    dcStep d (decide (y < 20) && decide (vel ≠ 0))
        dcKeyCat1Append (y, ts, e.raw) >>= fun d1 =>
      dcStep d1 (decide (20 ≤ y) && decide (y ≤ 80) && decide (vel ≠ 0))
          dcKeyCat2 (y, ts, e.raw) >>= fun d2 =>
        dcStep d2 (decide (80 < y) && decide (vel ≠ 0))
            dcKeyCat3 (y, ts, e.raw) >>= fun d3 =>
          dcStep d3 (decide (x = 0) && decide (y = 0) && decide (vel = 0))
            dcKeyCat4 (y, ts, e.raw)

/-- The `for entry in entries:` loop of line 58. -/
def dcProcessEntries (d : DCDict) (ts : String) :
    List DCEntry → Except DCDict DCDict
  | [] => .ok d
  | e :: es => dcProcessEntry d ts e >>= fun d2 => dcProcessEntries d2 ts es

/-- The per-file line loop of lines 41-91, threading
`current_timestamp` (initialized to `""` at line 37). -/
def dcProcessFileLines (d : DCDict) (ts : String) :
    List DCLine → Except DCDict DCDict
  | [] => .ok d
  | DCLine.blank :: ls => dcProcessFileLines d ts ls
  | DCLine.tsLine t :: ls => dcProcessFileLines d t ls
  | DCLine.objLine es :: ls =>
    dcProcessEntries d ts es >>= fun d2 => dcProcessFileLines d2 ts ls

/-- The per-file `except` handler of lines 93-95: whether the file ran to
completion or raised, processing continues with the dict state reached. -/
def dcSwallow : Except DCDict DCDict → DCDict
  | .ok d => d
  | .error d => d

/-- One file under the `try`/`except` of lines 39-95: a read failure
leaves the dict as it was; an exception mid-file is printed and swallowed
(`continue`), keeping the dict state reached so far. -/
def dcProcessFile (d : DCDict) (f : DCFile) : DCDict :=
  match f.content with
  | .error _ => d
  | .ok lines => dcSwallow (dcProcessFileLines d "" lines)

/-- The `for file_index, input_file in enumerate(txt_files, 1)` loop. -/
def dcProcessFolder (d : DCDict) (files : List DCFile) : DCDict :=
  files.foldl dcProcessFile d

/-- The key order of `sorted(entries, key=lambda x: x[0])`: compare the
`y` components. -/
def dcLe (a b : DCTuple) : Prop :=
  a.1 ≤ b.1

instance : DecidableRel dcLe :=
  fun a b => inferInstanceAs (Decidable (a.1 ≤ b.1))

instance : IsTrans DCTuple dcLe :=
  ⟨fun _ _ _ h h2 => le_trans h h2⟩

instance : IsTotal DCTuple dcLe :=
  ⟨fun a b => le_total a.1 b.1⟩

/-- `sort_entries` (lines 98-99): Python's stable `sorted` with
`key=lambda x: x[0]`, i.e. by the `y` component — rendered as insertion
sort, which is stable, so it computes exactly what `sorted` does. -/
def sort_entries (entries : List DCTuple) : List DCTuple :=
  entries.insertionSort dcLe

/-- Lines 102-107: sort every category except Category 4. -/
def dcSortDict (d : DCDict) : DCDict :=
  d.map fun p => if p.1 = dcKeyCat4 then p else (p.1, sort_entries p.2)

/-- `filter_radar_data` (DataCleaning.py lines 6-125): `sys.exit(1)` when
the input folder is missing (lines 25-27) or contains no `.txt` file
(lines 30-33), modelled as the `Except` error; otherwise the processed,
sorted dict.  (The final write to the output file is outside the core.) -/
def filter_radar_data (folder : Option (List DCFile)) : Except Unit DCDict :=
  match folder with
  | none => .error ()
  | some files =>
    let txt := files.filter fun f => pyEndsWith f.name ".txt"
    if txt.isEmpty then .error ()
    else .ok (dcSortDict (dcProcessFolder dcInit txt))

/-! ## Theorems -/

/-- A radar record with a null velocity and `y = 5` (with its timestamp,
`x` and `confidence` present). -/
def c1Rec : RadarRec :=
  ⟨0, some 1, some 5, some 1, none, none, none, none⟩

/-- C1 counterexample: a radar detection with `velocity = null` and
`y = 5 < 20` is selected into the Category 1 frame — pandas `NaN != 0`
evaluates to `True` — contradicting the claim that a null-velocity
detection belongs to none of the four categories. -/
theorem c1_counterexample :
    c1Rec.velocity = none ∧ c1Rec ∈ cat1Filter [c1Rec] := by
  decide

/-- C1 (amended): for a radar detection `r` of the input frame, `r` is in
Category 1 iff `y` is non-null with `y < 20` and `velocity` is not exactly
`0` (a null velocity passes the `!= 0` filter); Category 2 iff `y` non-null
with `20 ≤ y ≤ 80` and velocity not exactly `0`; Category 3 iff `y`
non-null with `y > 80` and velocity not exactly `0`; Category 4 iff `x`,
`y` and `velocity` are all present and exactly `0`. -/
theorem c1_categories (df : List RadarRec) (r : RadarRec) (h : r ∈ df) :
    (r ∈ cat1Filter df ↔
      (∃ yv, r.y = some yv ∧ yv < 20) ∧ r.velocity ≠ some 0) ∧
    (r ∈ cat2Filter df ↔
      (∃ yv, r.y = some yv ∧ 20 ≤ yv ∧ yv ≤ 80) ∧ r.velocity ≠ some 0) ∧
    (r ∈ cat3Filter df ↔
      (∃ yv, r.y = some yv ∧ 80 < yv) ∧ r.velocity ≠ some 0) ∧
    (r ∈ cat4Filter df ↔
      r.x = some 0 ∧ r.y = some 0 ∧ r.velocity = some 0) := by
  refine ⟨?_, ?_, ?_, ?_⟩
  all_goals
    simp only [cat1Filter, cat2Filter, cat3Filter, cat4Filter,
      List.mem_filter, h, true_and, Bool.and_eq_true]
    cases hy : r.y <;> cases hv : r.velocity <;>
      cases hx : r.x <;>
      simp [naLt, naLe, naGe, naGt, naNe, naEq] <;>
      omega

/-- C1 witness: the amended category characterization evaluated on a
concrete one-row frame. -/
theorem c1_categories_witness :
    (c1Rec ∈ cat1Filter [c1Rec] ↔
      (∃ yv, c1Rec.y = some yv ∧ yv < 20) ∧ c1Rec.velocity ≠ some 0) ∧
    (c1Rec ∈ cat2Filter [c1Rec] ↔
      (∃ yv, c1Rec.y = some yv ∧ 20 ≤ yv ∧ yv ≤ 80) ∧
        c1Rec.velocity ≠ some 0) ∧
    (c1Rec ∈ cat3Filter [c1Rec] ↔
      (∃ yv, c1Rec.y = some yv ∧ 80 < yv) ∧ c1Rec.velocity ≠ some 0) ∧
    (c1Rec ∈ cat4Filter [c1Rec] ↔
      c1Rec.x = some 0 ∧ c1Rec.y = some 0 ∧ c1Rec.velocity = some 0) :=
  c1_categories [c1Rec] c1Rec (by decide)

/-- A radar record with everything present (used for the C8 witness). -/
def c8Rec : RadarRec :=
  ⟨3, some 0, some 25, some 7, some 4, some 2, some 9, some 1⟩

/-- C8 counterexample: on an empty radar frame `filter_radar_entries`
returns the sentinel `0` (modelled `noData`), which is not the mapping of
the four category labels to empty sequences. -/
theorem c8_counterexample :
    filter_radar_entries ([] : List RadarRec) = FilterResult.noData ∧
    FilterResult.noData ≠ FilterResult.categories
      [("Category 1 (y < 20 and velocity ≠ 0)", []),
       ("Category 2 (20 ≤ y ≤ 80 and velocity ≠ 0)", []),
       ("Category 3 (y > 80 and velocity ≠ 0)", []),
       ("Category 4 (x = 0, y = 0, and velocity = 0)", [])] :=
  ⟨rfl, by decide⟩

/-- C8 (amended): on an empty radar collection the categorizer does not
return the four-label mapping — it prints a notice and returns the
sentinel `0`; the four-label mapping is produced exactly for non-empty
input. -/
theorem c8_empty_input (df : List RadarRec) :
    (df = [] → filter_radar_entries df = FilterResult.noData) ∧
    (df ≠ [] → filter_radar_entries df = FilterResult.categories
      [("Category 1 (y < 20 and velocity ≠ 0)", cat1Filter df),
       ("Category 2 (20 ≤ y ≤ 80 and velocity ≠ 0)", cat2Filter df),
       ("Category 3 (y > 80 and velocity ≠ 0)", cat3Filter df),
       ("Category 4 (x = 0, y = 0, and velocity = 0)", cat4Filter df)]) := by
  constructor
  · rintro rfl; rfl
  · intro h
    simp [filter_radar_entries, List.isEmpty_iff, h]

/-- C8 witness: the amended behaviour evaluated on the empty frame and on
a concrete one-row frame. -/
theorem c8_empty_input_witness :
    filter_radar_entries ([] : List RadarRec) = FilterResult.noData ∧
    filter_radar_entries [c8Rec] = FilterResult.categories
      [("Category 1 (y < 20 and velocity ≠ 0)", cat1Filter [c8Rec]),
       ("Category 2 (20 ≤ y ≤ 80 and velocity ≠ 0)", cat2Filter [c8Rec]),
       ("Category 3 (y > 80 and velocity ≠ 0)", cat3Filter [c8Rec]),
       ("Category 4 (x = 0, y = 0, and velocity = 0)", cat4Filter [c8Rec])] :=
  ⟨(c8_empty_input []).1 rfl, (c8_empty_input [c8Rec]).2 (by decide)⟩

/-- An item of a radar raw block on which the loop body of lines 43-53
raises `ValueError`: the `k, v = f.split("=")` unpacking fails, or the key
is one of the four recognized radar keys and `int(v)` fails. -/
def radarMalformedItem (f : String) : Bool :=
  match splitKV f with
  | none => true
  | some (k, w) =>
    (k = "distance" || k = "theta" || k = "velocity" || k = "power")
      && (pyInt w).isNone

/-- Likewise for the image raw-block loop of lines 77-87. -/
def imageMalformedItem (f : String) : Bool :=
  match splitKV f with
  | none => true
  | some (k, w) =>
    (k = "left" || k = "top" || k = "width" || k = "height")
      && (pyInt w).isNone

/-- Helper: a malformed item makes the radar loop body raise, whatever the
accumulated field state is. -/
theorem radarRawStep_error (st : RadarRaw) (f : String)
    (h : radarMalformedItem f = true) : radarRawStep st f = .error () := by
  unfold radarMalformedItem at h
  unfold radarRawStep
  cases hs : splitKV f with
  | none => rfl
  | some kv =>
    obtain ⟨k, w⟩ := kv
    rw [hs] at h
    simp only [Bool.and_eq_true, Bool.or_eq_true, decide_eq_true_eq,
      Option.isNone_iff_eq_none] at h
    obtain ⟨hk, hw⟩ := h
    rcases hk with ((hk | hk) | hk) | hk <;> simp [hk, hw]

/-- Helper: likewise for the image loop body. -/
theorem imageRawStep_error (st : ImageRaw) (f : String)
    (h : imageMalformedItem f = true) : imageRawStep st f = .error () := by
  unfold imageMalformedItem at h
  unfold imageRawStep
  cases hs : splitKV f with
  | none => rfl
  | some kv =>
    obtain ⟨k, w⟩ := kv
    rw [hs] at h
    simp only [Bool.and_eq_true, Bool.or_eq_true, decide_eq_true_eq,
      Option.isNone_iff_eq_none] at h
    obtain ⟨hk, hw⟩ := h
    rcases hk with ((hk | hk) | hk) | hk <;> simp [hk, hw]

/-- Helper: a malformed item anywhere in the field list makes the whole
radar raw loop raise. -/
theorem radarRawLoop_error (fs : List String) (st : RadarRaw)
    (h : ∃ f ∈ fs, radarMalformedItem f = true) :
    radarRawLoop fs st = .error () := by
  induction fs generalizing st with
  | nil => simp at h
  | cons g gs ih =>
    obtain ⟨f, hf, hm⟩ := h
    rcases List.mem_cons.mp hf with rfl | hf2
    · simp [radarRawLoop, radarRawStep_error st f hm]
    · cases hstep : radarRawStep st g with
      | error e => simp [radarRawLoop, hstep]
      | ok st2 =>
        simp only [radarRawLoop, hstep]
        exact ih st2 ⟨f, hf2, hm⟩

/-- Helper: likewise for the image raw loop. -/
theorem imageRawLoop_error (fs : List String) (st : ImageRaw)
    (h : ∃ f ∈ fs, imageMalformedItem f = true) :
    imageRawLoop fs st = .error () := by
  induction fs generalizing st with
  | nil => simp at h
  | cons g gs ih =>
    obtain ⟨f, hf, hm⟩ := h
    rcases List.mem_cons.mp hf with rfl | hf2
    · simp [imageRawLoop, imageRawStep_error st f hm]
    · cases hstep : imageRawStep st g with
      | error e => simp [imageRawLoop, hstep]
      | ok st2 =>
        simp only [imageRawLoop, hstep]
        exact ih st2 ⟨f, hf2, hm⟩

/-- C5 counterexample: on a radar line whose raw block is
`"distance=5, foo"` — the item `foo` has no `=` separator — `parse_line`
raises the modelled `ValueError` instead of returning a detection with the
well-formed `distance` field extracted and `foo` skipped. -/
theorem c5_counterexample :
    parse_line ⟨true, false, some 1, some 2, some 3,
      some "distance=5, foo"⟩ = Except.error () := by
  rfl

/-- C5 (amended): a malformed entry inside the nested raw block (an item
with no `=` separator, or a non-integer value under a recognized key)
makes `parse_line` raise an uncaught `ValueError` — no detection is
returned for the line, and since neither `parse_line` nor
`read_logs_from_folder` has a handler, the exception aborts the whole
ingestion, not just that field. -/
theorem c5_malformed_raw_aborts (lv : LineView) (raw : String)
    (hraw : lv.rawBlock = some raw) :
    (lv.hasRadarMarker = true →
      (∃ f ∈ rawFields raw, radarMalformedItem f = true) →
      parse_line lv = Except.error ()) ∧
    (lv.hasRadarMarker = false → lv.hasImageMarker = true →
      (∃ f ∈ rawFields raw, imageMalformedItem f = true) →
      parse_line lv = Except.error ()) := by
  constructor
  · intro hR hex
    simp only [parse_line, hR, hraw, if_true,
      radarRawLoop_error (rawFields raw) _ hex]
    rfl
  · intro hR hI hex
    simp only [parse_line, hR, hI, hraw, Bool.false_eq_true, if_false,
      if_true, imageRawLoop_error (rawFields raw) _ hex]
    rfl

/-- C5 witness: a radar line whose raw block holds the non-integer value
`velocity=abc` makes `parse_line` raise. -/
theorem c5_malformed_raw_aborts_witness :
    parse_line ⟨true, false, some 4, some 9, some 2,
      some "theta=1, velocity=abc"⟩ = Except.error () :=
  (c5_malformed_raw_aborts
      ⟨true, false, some 4, some 9, some 2, some "theta=1, velocity=abc"⟩
      "theta=1, velocity=abc" rfl).1 rfl
    ⟨"velocity=abc", by decide, by decide⟩

/-- Helper: `t` is iterated iff some radar detection carries time `t`. -/
theorem mem_uniqueTimes (radar : List RadarRec) (t : Timestamp) :
    t ∈ uniqueTimes radar ↔ ∃ r ∈ radar, r.time = t := by
  simp [uniqueTimes, List.mem_insertionSort, List.mem_dedup]

/-- Helper: the iterated timestamps are pairwise distinct. -/
theorem uniqueTimes_nodup (radar : List RadarRec) :
    (uniqueTimes radar).Nodup :=
  (List.perm_insertionSort _ _).nodup_iff.mpr
    (List.nodup_dedup (radar.map RadarRec.time))

/-- Helper: the iterated timestamps are ascending. -/
theorem uniqueTimes_sorted (radar : List RadarRec) :
    (uniqueTimes radar).Sorted (· ≤ ·) :=
  List.sorted_insertionSort _ _

/-- Helper: membership in `matched_timeframes`. -/
theorem mem_matched_iff (radar : List RadarRec) (image : List ImageRec)
    (tf : TimeFrame) :
    tf ∈ (compare_radar_image radar image).matched ↔
      ∃ t ∈ uniqueTimes radar,
        frameMatched radar image t = true ∧ tf = mkFrame radar image t := by
  simp only [compare_radar_image, List.mem_filterMap]
  constructor
  · rintro ⟨t, ht, hf⟩
    by_cases h : frameMatched radar image t = true
    · rw [if_pos h] at hf
      exact ⟨t, ht, h, (Option.some.inj hf).symm⟩
    · rw [if_neg h] at hf
      cases hf
  · rintro ⟨t, ht, h, rfl⟩
    exact ⟨t, ht, by rw [if_pos h]⟩

/-- Helper: membership in `unmatched_timeframes`. -/
theorem mem_unmatched_iff (radar : List RadarRec) (image : List ImageRec)
    (tf : TimeFrame) :
    tf ∈ (compare_radar_image radar image).unmatched ↔
      ∃ t ∈ uniqueTimes radar,
        frameMatched radar image t = false ∧ tf = mkFrame radar image t := by
  simp only [compare_radar_image, List.mem_filterMap]
  constructor
  · rintro ⟨t, ht, hf⟩
    by_cases h : frameMatched radar image t = true
    · rw [if_pos h] at hf
      cases hf
    · rw [if_neg h] at hf
      exact ⟨t, ht, Bool.not_eq_true _ ▸ h, (Option.some.inj hf).symm⟩
  · rintro ⟨t, ht, h, rfl⟩
    refine ⟨t, ht, by rw [if_neg]; simp [h]⟩

/-- Helper: splitting the per-timestamp radar counts by the frame condition
and re-adding them recovers the count over all iterated timestamps. -/
theorem sum_split_by_cond (ts : List Timestamp) (P : Timestamp → Bool)
    (F : Timestamp → TimeFrame) :
    ((ts.filterMap fun t => if P t then some (F t) else none).map
        fun tf => tf.radar_data.length).sum
      + ((ts.filterMap fun t => if P t then none else some (F t)).map
        fun tf => tf.radar_data.length).sum
      = (ts.map fun t => (F t).radar_data.length).sum := by
  induction ts with
  | nil => rfl
  | cons t ts ih =>
    by_cases h : P t = true
    · simp only [List.filterMap_cons, h, if_true, List.map_cons, List.sum_cons]
      omega
    · simp only [List.filterMap_cons, h, if_false, List.map_cons,
        List.sum_cons, Bool.false_eq_true]
      omega

/-- Helper: the per-timestamp radar subsets partition the radar list, so
their sizes over the distinct timestamps add up to its length. -/
theorem sum_radarAt_length (radar : List RadarRec) :
    ((uniqueTimes radar).map fun t => (radarAt radar t).length).sum
      = radar.length := by
  have hperm :
      ((uniqueTimes radar).map fun t => (radarAt radar t).length).sum
        = (((radar.map RadarRec.time).dedup).map
            fun t => (radarAt radar t).length).sum :=
    ((List.perm_insertionSort _ _).map _).sum_eq
  rw [hperm]
  have hcount : ∀ t ∈ (radar.map RadarRec.time).dedup,
      (radarAt radar t).length = (radar.map RadarRec.time).count t := by
    intro t _
    calc (radar.filter fun r => r.time == t).length
        = radar.countP (fun r => r.time == t) :=
          (List.countP_eq_length_filter _ _).symm
      _ = (radar.map RadarRec.time).countP (fun x => x == t) := by
          rw [List.countP_map]
          rfl
      _ = (radar.map RadarRec.time).count t := rfl
  rw [List.map_congr_left hcount, List.sum_map_count_dedup_eq_length,
    List.length_map]

/-- A two-timestamp scenario: time 1 fully matched, time 2 unmatched. -/
def c3Radar : List RadarRec :=
  [⟨1, some 2, some 3, some 9, none, none, some 4, none⟩,
   ⟨2, some 5, some 6, some 7, none, none, some 1, none⟩]

/-- The image side of the C3 scenario (nothing at time 2). -/
def c3Image : List ImageRec :=
  [⟨1, some 2, some 3, some 9, none, none, none, none⟩]

/-- C3: the matcher visits exactly the distinct radar timestamps in
ascending order; every output time-frame carries a radar timestamp (so
image-only timestamps appear in neither output); each visited time-frame
lands in exactly one of the two outputs; and the radar detections of the
matched and unmatched time-frames together count the whole radar
collection. -/
theorem c3_iteration (radar : List RadarRec) (image : List ImageRec) :
    ((uniqueTimes radar).Sorted (· ≤ ·) ∧ (uniqueTimes radar).Nodup ∧
      (∀ t, t ∈ uniqueTimes radar ↔ ∃ r ∈ radar, r.time = t)) ∧
    (∀ tf, tf ∈ (compare_radar_image radar image).matched ++
        (compare_radar_image radar image).unmatched →
      ∃ r ∈ radar, r.time = tf.time) ∧
    (∀ t ∈ uniqueTimes radar,
      (mkFrame radar image t ∈ (compare_radar_image radar image).matched ∧
        mkFrame radar image t ∉ (compare_radar_image radar image).unmatched) ∨
      (mkFrame radar image t ∉ (compare_radar_image radar image).matched ∧
        mkFrame radar image t ∈ (compare_radar_image radar image).unmatched)) ∧
    (((compare_radar_image radar image).matched.map
        fun tf => tf.radar_data.length).sum
      + ((compare_radar_image radar image).unmatched.map
        fun tf => tf.radar_data.length).sum
      = radar.length) := by
  refine ⟨⟨uniqueTimes_sorted radar, uniqueTimes_nodup radar,
    fun t => mem_uniqueTimes radar t⟩, ?_, ?_, ?_⟩
  · intro tf htf
    rcases List.mem_append.mp htf with h | h
    · obtain ⟨t, ht, _, rfl⟩ := (mem_matched_iff radar image tf).mp h
      exact (mem_uniqueTimes radar t).mp ht
    · obtain ⟨t, ht, _, rfl⟩ := (mem_unmatched_iff radar image tf).mp h
      exact (mem_uniqueTimes radar t).mp ht
  · intro t ht
    cases hfm : frameMatched radar image t with
    | true =>
      left
      constructor
      · exact (mem_matched_iff radar image _).mpr ⟨t, ht, hfm, rfl⟩
      · intro hmem
        obtain ⟨t2, _, hcond, heq⟩ := (mem_unmatched_iff radar image _).mp hmem
        have ht2 : t = t2 := congrArg TimeFrame.time heq
        subst ht2
        rw [hfm] at hcond
        cases hcond
    | false =>
      right
      constructor
      · intro hmem
        obtain ⟨t2, _, hcond, heq⟩ := (mem_matched_iff radar image _).mp hmem
        have ht2 : t = t2 := congrArg TimeFrame.time heq
        subst ht2
        rw [hfm] at hcond
        cases hcond
      · exact (mem_unmatched_iff radar image _).mpr ⟨t, ht, hfm, rfl⟩
  · have hsplit := sum_split_by_cond (uniqueTimes radar)
      (frameMatched radar image) (mkFrame radar image)
    calc ((compare_radar_image radar image).matched.map
          fun tf => tf.radar_data.length).sum
        + ((compare_radar_image radar image).unmatched.map
          fun tf => tf.radar_data.length).sum
        = ((uniqueTimes radar).map
            fun t => (mkFrame radar image t).radar_data.length).sum := hsplit
      _ = radar.length := sum_radarAt_length radar

/-- C3 witness: the radar-timestamp origin of an output frame and the
exactly-one placement, evaluated on a concrete two-timestamp scenario. -/
theorem c3_iteration_witness :
    (∃ r ∈ c3Radar, r.time = (mkFrame c3Radar c3Image 2).time) ∧
    ((mkFrame c3Radar c3Image 1 ∈
          (compare_radar_image c3Radar c3Image).matched ∧
        mkFrame c3Radar c3Image 1 ∉
          (compare_radar_image c3Radar c3Image).unmatched) ∨
      (mkFrame c3Radar c3Image 1 ∉
          (compare_radar_image c3Radar c3Image).matched ∧
        mkFrame c3Radar c3Image 1 ∈
          (compare_radar_image c3Radar c3Image).unmatched)) :=
  ⟨(c3_iteration c3Radar c3Image).2.1 (mkFrame c3Radar c3Image 2) (by decide),
   (c3_iteration c3Radar c3Image).2.2.1 1 (by decide)⟩

/-- C4: the printed percentage is `100 * matched_count / total_count` when
`total_count > 0`, and exactly `0` when `total_count = 0`
(lines 266-270). -/
theorem c4_match_percentage (radar : List RadarRec) (image : List ImageRec) :
    (0 < (compare_radar_image radar image).total_radar_count →
      (compare_radar_image radar image).overall_match_percentage =
        100 * ((compare_radar_image radar image).matched_radar_count : Rat) /
          ((compare_radar_image radar image).total_radar_count : Rat)) ∧
    ((compare_radar_image radar image).total_radar_count = 0 →
      (compare_radar_image radar image).overall_match_percentage = 0) := by
  constructor
  · intro h
    simp only [compare_radar_image] at h ⊢
    rw [if_pos h]
    ring
  · intro h
    simp only [compare_radar_image] at h ⊢
    rw [if_neg]
    omega

/-- C4 witness: the percentage formula evaluated on a concrete scenario
with radar data and on the empty inputs. -/
theorem c4_match_percentage_witness :
    ((compare_radar_image c3Radar c3Image).overall_match_percentage =
      100 * ((compare_radar_image c3Radar c3Image).matched_radar_count : Rat) /
        ((compare_radar_image c3Radar c3Image).total_radar_count : Rat)) ∧
    ((compare_radar_image ([] : List RadarRec)
        ([] : List ImageRec)).overall_match_percentage = 0) :=
  ⟨(c4_match_percentage c3Radar c3Image).1 (by decide),
   (c4_match_percentage [] []).2 rfl⟩

/-- Two Category-2 rows whose `y` values arrive out of order. -/
def c6Radar : List RadarRec :=
  [⟨1, some 0, some 30, some 1, none, none, some 2, none⟩,
   ⟨1, some 0, some 25, some 1, none, none, some 2, none⟩]

/-- Two DataCleaning tuples whose `y` values arrive out of order. -/
def c6Tuples : List DCTuple :=
  [(30, "ts1", "a"), (25, "ts2", "b")]

/-- C6 counterexample: the canonical categorizer `filter_radar_entries`
applies no sort — on input rows with `y = 30` then `y = 25` the Category 2
sequence keeps that order, so it is not ascending by `y`. -/
theorem c6_counterexample :
    (cat2Filter c6Radar).filterMap RadarRec.y = [(30 : Int), 25] ∧
    ¬ ((cat2Filter c6Radar).filterMap RadarRec.y).Sorted (· ≤ ·) := by
  constructor
  · decide
  · decide

/-- Helper: filtering a list to one `y` value yields a `dcLe`-pairwise
sublist, so stability of insertion sort applies to it. -/
theorem filter_key_sublist_sort (l : List DCTuple) (k : Int) :
    List.Sublist (l.filter (fun e => e.1 == k)) (sort_entries l) := by
  apply List.sublist_insertionSort
  · apply List.pairwise_of_forall_mem_list
    intro a ha b hb
    have hak : a.1 = k := by simpa using (List.mem_filter.mp ha).2
    have hbk : b.1 = k := by simpa using (List.mem_filter.mp hb).2
    unfold dcLe
    omega
  · exact List.filter_sublist l

/-- C6 (amended): the canonical categorizer (`filter_radar_entries`)
leaves all four category sequences in encounter order — each is an
order-preserving sublist of the input, no sort is applied.  In the
superseded `DataCleaning.py` variant, `sort_entries` does sort ascending
by `y` with ties kept in original relative order (each `y`-class is
preserved verbatim), and the sort phase applies it to every category
except Category 4, which keeps encounter order. -/
theorem c6_category_order (df : List RadarRec) (l : List DCTuple) :
    (List.Sublist (cat1Filter df) df ∧ List.Sublist (cat2Filter df) df ∧
      List.Sublist (cat3Filter df) df ∧ List.Sublist (cat4Filter df) df) ∧
    ((sort_entries l).Sorted dcLe ∧
      ∀ k : Int, (sort_entries l).filter (fun e => e.1 == k) =
        l.filter (fun e => e.1 == k)) ∧
    (∀ d : DCDict, ∀ key entries, (key, entries) ∈ d →
      (key = dcKeyCat4 → (key, entries) ∈ dcSortDict d) ∧
      (key ≠ dcKeyCat4 → (key, sort_entries entries) ∈ dcSortDict d)) := by
  refine ⟨⟨List.filter_sublist df, List.filter_sublist df,
    List.filter_sublist df, List.filter_sublist df⟩, ⟨?_, ?_⟩, ?_⟩
  · exact List.sorted_insertionSort dcLe l
  · intro k
    have hsub : List.Sublist (l.filter (fun e => e.1 == k))
        ((sort_entries l).filter (fun e => e.1 == k)) := by
      have h1 := (filter_key_sublist_sort l k).filter (fun e => e.1 == k)
      rwa [List.filter_filter, List.filter_congr (fun a _ => Bool.and_self _)]
        at h1
    have hlen : ((sort_entries l).filter (fun e => e.1 == k)).length =
        (l.filter (fun e => e.1 == k)).length := by
      rw [← List.countP_eq_length_filter, ← List.countP_eq_length_filter]
      exact (List.perm_insertionSort dcLe l).countP_eq _
    exact (hsub.eq_of_length hlen.symm).symm
  · intro d key entries hmem
    constructor
    · intro hk
      have : (if (key, entries).1 = dcKeyCat4 then (key, entries)
          else ((key, entries).1, sort_entries (key, entries).2)) ∈
          dcSortDict d := List.mem_map_of_mem _ hmem
      simpa [hk] using this
    · intro hk
      have : (if (key, entries).1 = dcKeyCat4 then (key, entries)
          else ((key, entries).1, sort_entries (key, entries).2)) ∈
          dcSortDict d := List.mem_map_of_mem _ hmem
      simpa [hk] using this

/-- C6 witness: the ordering facts evaluated on concrete two-element
inputs. -/
theorem c6_category_order_witness :
    List.Sublist (cat2Filter c6Radar) c6Radar ∧
    (sort_entries c6Tuples).Sorted dcLe ∧
    (sort_entries c6Tuples).filter (fun e => e.1 == (25 : Int)) =
      c6Tuples.filter (fun e => e.1 == (25 : Int)) ∧
    (dcKeyCat4, c6Tuples) ∈ dcSortDict [(dcKeyCat4, c6Tuples)] ∧
    (dcKeyCat1, sort_entries c6Tuples) ∈ dcSortDict [(dcKeyCat1, c6Tuples)] :=
  ⟨(c6_category_order c6Radar c6Tuples).1.2.1,
   (c6_category_order c6Radar c6Tuples).2.1.1,
   (c6_category_order c6Radar c6Tuples).2.1.2 25,
   ((c6_category_order c6Radar c6Tuples).2.2 [(dcKeyCat4, c6Tuples)]
     dcKeyCat4 c6Tuples (by decide)).1 rfl,
   ((c6_category_order c6Radar c6Tuples).2.2 [(dcKeyCat1, c6Tuples)]
     dcKeyCat1 c6Tuples (by decide)).2 (by decide)⟩

/-- The timestamp-context update caused by one line (line 116: a
timestamp line replaces `current_time`, every other line leaves it). -/
def updCtx (c : Option Timestamp) (l : LogLine) : Option Timestamp :=
  match l with
  | LogLine.tsLine t => some t
  | _ => c

/-- Each line paired with the timestamp context in force when the ingest
loop reaches it. -/
def withCtx : List LogLine → Option Timestamp →
    List (LogLine × Option Timestamp)
  | [], _ => []
  | l :: ls, c => (l, c) :: withCtx ls (updCtx c l)

/-- The timestamp a line announces, if it is a timestamp line. -/
def tsOf : LogLine → Option Timestamp
  | LogLine.tsLine t => some t
  | _ => none

/-- The radar record a line emits under a given context: only a data line
parsed as a radar dict, reached with a non-`None` context, produces one. -/
def radarEmit : LogLine × Option Timestamp → Option RadarRec
  | (LogLine.dataLine v, some t) =>
    match parse_line v with
    | .ok (ParseResult.radar o) => some (mkRadarRec t o)
    | _ => none
  | _ => none

/-- The image record a line emits under a given context. -/
def imageEmit : LogLine × Option Timestamp → Option ImageRec
  | (LogLine.dataLine v, some t) =>
    match parse_line v with
    | .ok (ParseResult.image o) => some (mkImageRec t o)
    | _ => none
  | _ => none

/-- Helper: on a successful run, the per-file loop emits exactly the
records of the context-annotated lines. -/
theorem processLines_ok (lines : List LogLine) (c : Option Timestamp)
    (rs : List RadarRec) (imgs : List ImageRec)
    (h : processLines lines c = .ok (rs, imgs)) :
    rs = (withCtx lines c).filterMap radarEmit ∧
    imgs = (withCtx lines c).filterMap imageEmit := by
  induction lines generalizing c rs imgs with
  | nil =>
    simp only [processLines, Except.ok.injEq, Prod.mk.injEq] at h
    obtain ⟨rfl, rfl⟩ := h
    exact ⟨rfl, rfl⟩
  | cons l ls ih =>
    cases l with
    | blank =>
      obtain ⟨h1, h2⟩ := ih c rs imgs h
      constructor
      · simpa [withCtx, updCtx, List.filterMap_cons, radarEmit] using h1
      · simpa [withCtx, updCtx, List.filterMap_cons, imageEmit] using h2
    | tsLine t =>
      obtain ⟨h1, h2⟩ := ih (some t) rs imgs h
      constructor
      · simpa [withCtx, updCtx, List.filterMap_cons, radarEmit] using h1
      · simpa [withCtx, updCtx, List.filterMap_cons, imageEmit] using h2
    | dataLine v =>
      simp only [processLines] at h
      cases hp : parse_line v with
      | error e => rw [hp] at h; simp at h
      | ok pr =>
        rw [hp] at h
        cases hq : processLines ls c with
        | error e => rw [hq] at h; simp at h
        | ok pair =>
          obtain ⟨rs0, imgs0⟩ := pair
          rw [hq] at h
          obtain ⟨h1, h2⟩ := ih c rs0 imgs0 hq
          cases pr with
          | empty =>
            simp only [Except.ok.injEq, Prod.mk.injEq] at h
            obtain ⟨rfl, rfl⟩ := h
            cases c <;>
              exact ⟨by simpa [withCtx, updCtx, List.filterMap_cons,
                  radarEmit, hp] using h1,
                by simpa [withCtx, updCtx, List.filterMap_cons,
                  imageEmit, hp] using h2⟩
          | radar o =>
            cases c with
            | none =>
              simp only [Except.ok.injEq, Prod.mk.injEq] at h
              obtain ⟨rfl, rfl⟩ := h
              constructor
              · simpa [withCtx, updCtx, List.filterMap_cons, radarEmit, hp]
                  using h1
              · simpa [withCtx, updCtx, List.filterMap_cons, imageEmit, hp]
                  using h2
            | some t =>
              simp only [Except.ok.injEq, Prod.mk.injEq] at h
              obtain ⟨rfl, rfl⟩ := h
              constructor
              · simp [withCtx, updCtx, List.filterMap_cons, radarEmit, hp]
                exact h1
              · simpa [withCtx, updCtx, List.filterMap_cons, imageEmit, hp]
                  using h2
          | image o =>
            cases c with
            | none =>
              simp only [Except.ok.injEq, Prod.mk.injEq] at h
              obtain ⟨rfl, rfl⟩ := h
              constructor
              · simpa [withCtx, updCtx, List.filterMap_cons, radarEmit, hp]
                  using h1
              · simpa [withCtx, updCtx, List.filterMap_cons, imageEmit, hp]
                  using h2
            | some t =>
              simp only [Except.ok.injEq, Prod.mk.injEq] at h
              obtain ⟨rfl, rfl⟩ := h
              constructor
              · simpa [withCtx, updCtx, List.filterMap_cons, radarEmit, hp]
                  using h1
              · simp [withCtx, updCtx, List.filterMap_cons, imageEmit, hp]
                exact h2

/-- Helper: the context folded over a prefix is the timestamp of its last
timestamp line, if any. -/
theorem foldl_updCtx_eq (pre : List LogLine) (c : Option Timestamp) :
    pre.foldl updCtx c = ((pre.filterMap tsOf).getLast?).or c := by
  induction pre generalizing c with
  | nil => simp
  | cons l ls ih =>
    cases l with
    | blank =>
      have h1 : updCtx c LogLine.blank = c := rfl
      have h2 : tsOf LogLine.blank = none := rfl
      simp only [List.foldl_cons, List.filterMap_cons, h1, h2]
      exact ih c
    | dataLine v =>
      have h1 : updCtx c (LogLine.dataLine v) = c := rfl
      have h2 : tsOf (LogLine.dataLine v) = none := rfl
      simp only [List.foldl_cons, List.filterMap_cons, h1, h2]
      exact ih c
    | tsLine t =>
      have h1 : updCtx c (LogLine.tsLine t) = some t := rfl
      have h2 : tsOf (LogLine.tsLine t) = some t := rfl
      simp only [List.foldl_cons, List.filterMap_cons, h1, h2]
      rw [ih (some t)]
      cases hxs : ls.filterMap tsOf with
      | nil => simp
      | cons b bs =>
        rw [List.getLast?_cons_cons]
        obtain ⟨u, hu⟩ := Option.isSome_iff_exists.mp
          (List.getLast?_isSome.mpr (List.cons_ne_nil b bs))
        rw [hu]
        rfl

/-- Helper: the context paired with the `n`-th line is the fold of the
updates over the first `n` lines. -/
theorem withCtx_snd (lines : List LogLine) (c : Option Timestamp) :
    (withCtx lines c).map Prod.snd =
      (List.range lines.length).map fun n => (lines.take n).foldl updCtx c := by
  induction lines generalizing c with
  | nil => rfl
  | cons l ls ih =>
    simp only [withCtx, List.map_cons, List.length_cons,
      List.range_succ_eq_map, List.map_map]
    refine congrArg₂ List.cons rfl ?_
    rw [ih (updCtx c l)]
    apply List.map_congr_left
    intro n _
    simp [Function.comp, List.take_succ_cons]

/-- A radar data line (no raw block) used for the C7 witness. -/
def c7Lv : LineView :=
  ⟨true, false, some 1, some 2, some 3, none⟩

/-- A file whose first detection line precedes any timestamp line. -/
def c7Lines : List LogLine :=
  [LogLine.dataLine c7Lv, LogLine.tsLine 7, LogLine.blank,
   LogLine.dataLine c7Lv]

/-- C7: on a successful run of the per-file ingest loop started in the
`NoTimestamp` state, (1) the two outputs are exactly the records of data
lines whose context is a concrete timestamp — every exported detection
carries that timestamp (never a null one), and a detection line before the
first timestamp line of its file (context still `none`) reaches neither
output; (2) the context in force at the `n`-th line of the file is the
timestamp of the most recent preceding timestamp line (the last timestamp
line among the first `n` lines); and (3) the folder loop starts every
`.txt` file over with the context reset to `none` and concatenates the
per-file outputs. -/
theorem c7_timestamp_context (lines : List LogLine) (rs : List RadarRec)
    (imgs : List ImageRec) (h : processLines lines none = .ok (rs, imgs)) :
    (rs = (withCtx lines none).filterMap radarEmit ∧
      imgs = (withCtx lines none).filterMap imageEmit) ∧
    ((withCtx lines none).map Prod.snd =
      (List.range lines.length).map
        fun n => ((lines.take n).filterMap tsOf).getLast?) ∧
    (∀ (f : LogFile) (fs : List LogFile) (ls : List LogLine)
        (as : List RadarRec) (bs : List ImageRec) (cs : List RadarRec)
        (ds : List ImageRec),
      pyEndsWith f.name ".txt" = true → f.content = .ok ls →
      processLines ls none = .ok (as, bs) →
      readFolderLoop fs = .ok (cs, ds) →
      readFolderLoop (f :: fs) = .ok (as ++ cs, bs ++ ds)) := by
  refine ⟨processLines_ok lines none rs imgs h, ?_, ?_⟩
  · rw [withCtx_snd]
    apply List.map_congr_left
    intro n _
    rw [foldl_updCtx_eq]
    simp
  · intro f fs ls as bs cs ds htxt hread hproc hrest
    simp [readFolderLoop, htxt, hread, hproc, hrest]

/-- C7 witness: a concrete file whose pre-timestamp detection line is
dropped and whose later detection line is exported with the preceding
timestamp. -/
theorem c7_timestamp_context_witness :
    [mkRadarRec 7 ⟨some 1, some 2, some 3, none, none, none, none⟩] =
      (withCtx c7Lines none).filterMap radarEmit ∧
    ([] : List ImageRec) = (withCtx c7Lines none).filterMap imageEmit :=
  (c7_timestamp_context c7Lines
    [mkRadarRec 7 ⟨some 1, some 2, some 3, none, none, none, none⟩]
    [] rfl).1

/-- Helper: in the canonical ingestor a read failure of any `.txt` file
aborts the whole folder loop — there is no per-file handler. -/
theorem readFolderLoop_error (files : List LogFile) (f : LogFile)
    (hmem : f ∈ files) (htxt : pyEndsWith f.name ".txt" = true)
    (hcontent : f.content = Except.error ()) :
    readFolderLoop files = Except.error () := by
  induction files with
  | nil => simp at hmem
  | cons g gs ih =>
    rcases List.mem_cons.mp hmem with rfl | hmem2
    · simp [readFolderLoop, htxt, hcontent]
    · have htail := ih hmem2
      by_cases hg : pyEndsWith g.name ".txt" = true
      · simp only [readFolderLoop, hg, if_true]
        cases hgc : g.content with
        | error e => rfl
        | ok ls =>
          cases hpl : processLines ls none with
          | error e => simp [hpl]
          | ok pair =>
            obtain ⟨rs, imgs⟩ := pair
            simp [hpl, htail]
      · simp only [readFolderLoop, hg, if_false]
        exact htail

/-- Helper: a folder with no `.txt` file makes the canonical ingestor
return two empty collections, not an error. -/
theorem readFolderLoop_no_txt (files : List LogFile)
    (h : ∀ f ∈ files, pyEndsWith f.name ".txt" = false) :
    readFolderLoop files = Except.ok ([], []) := by
  induction files with
  | nil => rfl
  | cons g gs ih =>
    have hg := h g (List.mem_cons_self g gs)
    simp only [readFolderLoop, hg, Bool.false_eq_true, if_false]
    exact ih fun f hf => h f (List.mem_cons_of_mem g hf)

/-- C9 counterexample: a single unreadable `.txt` file aborts the whole
canonical ingestion run (`read_logs_from_folder` has no per-file
`try`/`except`), contradicting "never aborting the batch". -/
theorem c9_counterexample :
    read_logs_from_folder
      (some [⟨"a.txt", Except.error ()⟩, ⟨"b.txt", Except.ok []⟩]) =
      Except.error () := rfl

/-- C9 (amended): the two variants differ.  In `DataCleaning.py`'s
`filter_radar_data`, a missing input folder and a folder with no `.txt`
file are fatal (`sys.exit(1)`), while a read failure of one file is
swallowed by the per-file handler and the batch continues.  In the
canonical `read_logs_from_folder`, a missing folder is fatal
(`os.listdir` raises), but a read failure of a single `.txt` file aborts
the whole batch, and a folder with no `.txt` file yields empty
collections rather than aborting. -/
theorem c9_error_handling :
    (filter_radar_data none = Except.error ()) ∧
    (∀ files : List DCFile,
      files.filter (fun f => pyEndsWith f.name ".txt") = [] →
      filter_radar_data (some files) = Except.error ()) ∧
    (∀ (d : DCDict) (name : String) (fs : List DCFile),
      dcProcessFolder d (⟨name, Except.error ()⟩ :: fs) =
        dcProcessFolder d fs) ∧
    (read_logs_from_folder none = Except.error ()) ∧
    (∀ (files : List LogFile) (f : LogFile), f ∈ files →
      pyEndsWith f.name ".txt" = true → f.content = Except.error () →
      read_logs_from_folder (some files) = Except.error ()) ∧
    (∀ files : List LogFile,
      (∀ f ∈ files, pyEndsWith f.name ".txt" = false) →
      read_logs_from_folder (some files) = Except.ok ([], [])) := by
  refine ⟨rfl, ?_, ?_, rfl, ?_, ?_⟩
  · intro files h
    simp [filter_radar_data, h]
  · intro d name fs
    simp [dcProcessFolder, dcProcessFile]
  · intro files f h1 h2 h3
    exact readFolderLoop_error files f h1 h2 h3
  · intro files h
    exact readFolderLoop_no_txt files h

/-- C9 witness: the amended error-handling facts on concrete folders. -/
theorem c9_error_handling_witness :
    (filter_radar_data (some ([⟨"notes.log", Except.ok []⟩] : List DCFile)) =
      Except.error ()) ∧
    (dcProcessFolder dcInit [⟨"x.txt", Except.error ()⟩] =
      dcProcessFolder dcInit []) ∧
    (read_logs_from_folder (some [⟨"c.txt", Except.error ()⟩]) =
      Except.error ()) ∧
    (read_logs_from_folder (some [⟨"notes.log", Except.ok []⟩]) =
      Except.ok ([], [])) :=
  ⟨c9_error_handling.2.1 [⟨"notes.log", Except.ok []⟩] rfl,
   c9_error_handling.2.2.1 dcInit "x.txt" [],
   c9_error_handling.2.2.2.2.1 [⟨"c.txt", Except.error ()⟩]
     ⟨"c.txt", Except.error ()⟩ (List.mem_singleton_self _) (by decide) rfl,
   c9_error_handling.2.2.2.2.2 [⟨"notes.log", Except.ok []⟩]
     (by intro f hf; rw [List.mem_singleton.mp hf]; decide)⟩

/-- Helper: looking a key up after mapping a key-preserving function over
the dict looks it up first and then transforms the found value. -/
theorem dcGet_map_keyfix (g : String × List DCTuple → String × List DCTuple)
    (hg : ∀ p, (g p).1 = p.1) (d : DCDict) (k : String) :
    dcGet (d.map g) k = (dcGet d k).map fun w => (g (k, w)).2 := by
  induction d with
  | nil => rfl
  | cons p ps ih =>
    obtain ⟨pk, pv⟩ := p
    rcases hgpv : g (pk, pv) with ⟨gk, gv⟩
    have hgk : gk = pk := by
      have h2 := hg (pk, pv)
      rw [hgpv] at h2
      exact h2
    subst hgk
    simp only [List.map_cons, hgpv, dcGet]
    by_cases hk : gk = k
    · rw [if_pos hk, if_pos hk]
      have h2 : g (k, pv) = (k, gv) := by
        rw [← hk]
        exact hgpv
      simp [h2]
    · rw [if_neg hk, if_neg hk]
      exact ih

/-- Helper: the in-place append at one key leaves every other key's value
unchanged. -/
theorem dcGet_map_update_ne (d : DCDict) (key k2 : String) (v : DCTuple)
    (hne : k2 ≠ key) :
    dcGet (d.map fun p => if p.1 = key then (p.1, p.2 ++ [v]) else p) k2 =
      dcGet d k2 := by
  rw [dcGet_map_keyfix]
  · cases hd : dcGet d k2 <;> simp [hne]
  · intro p
    by_cases hp : p.1 = key <;> simp [hp]

/-- Helper: a failing conditional append leaves the dict exactly as it
was (the `KeyError` is raised by the lookup, before any mutation). -/
theorem dcStep_error_eq (d : DCDict) (cond : Bool) (key : String)
    (v : DCTuple) (d2 : DCDict) (h : dcStep d cond key v = .error d2) :
    d2 = d := by
  unfold dcStep at h
  cases cond with
  | false => simp at h
  | true =>
    simp only [if_true] at h
    cases hap : dcAppend d key v with
    | ok d3 => rw [hap] at h; simp at h
    | error e =>
      rw [hap] at h
      simp only [Except.error.injEq] at h
      exact h.symm

/-- Helper: a successful conditional append to a key other than the
Category 1 init key leaves that key's value unchanged. -/
theorem dcStep_ok_get (d d2 : DCDict) (cond : Bool) (key : String)
    (v : DCTuple) (hk : key ≠ dcKeyCat1)
    (h : dcStep d cond key v = .ok d2) :
    dcGet d2 dcKeyCat1 = dcGet d dcKeyCat1 := by
  unfold dcStep at h
  cases cond with
  | false =>
    simp only [Bool.false_eq_true, if_false, Except.ok.injEq] at h
    rw [← h]
  | true =>
    simp only [if_true] at h
    cases hap : dcAppend d key v with
    | error e => rw [hap] at h; simp at h
    | ok d3 =>
      rw [hap] at h
      simp only [Except.ok.injEq] at h
      subst h
      unfold dcAppend at hap
      by_cases hs : (dcGet d key).isSome = true
      · rw [if_pos hs] at hap
        simp only [Except.ok.injEq] at hap
        rw [← hap]
        exact dcGet_map_update_ne d key dcKeyCat1 v hk.symm
      · rw [if_neg hs] at hap
        cases hap

/-- A fallible dict transformation that, whether it completes or raises,
never changes the value under the Category 1 init key. -/
def PreservesCat1 (m : Except DCDict DCDict) (d : DCDict) : Prop :=
  (∀ d2, m = .ok d2 → dcGet d2 dcKeyCat1 = dcGet d dcKeyCat1) ∧
  (∀ d2, m = .error d2 → dcGet d2 dcKeyCat1 = dcGet d dcKeyCat1)

/-- Helper: one conditional append preserves the Category 1 init key when
it targets a different key. -/
theorem dcStep_preserves (d : DCDict) (cond : Bool) (key : String)
    (v : DCTuple) (hk : key ≠ dcKeyCat1) :
    PreservesCat1 (dcStep d cond key v) d :=
  ⟨fun d2 h => dcStep_ok_get d d2 cond key v hk h,
   fun d2 h => by rw [dcStep_error_eq d cond key v d2 h]⟩

/-- Helper: sequencing two preserving computations preserves. -/
theorem bind_preservesCat1 (m : Except DCDict DCDict)
    (f : DCDict → Except DCDict DCDict) (d : DCDict)
    (hm : PreservesCat1 m d)
    (hf : ∀ d1, m = .ok d1 → PreservesCat1 (f d1) d1) :
    PreservesCat1 (m >>= f) d := by
  cases m with
  | error d1 =>
    constructor
    · intro d2 h
      have h2 : Except.error d1 = Except.ok d2 := h
      cases h2
    · intro d2 h
      have h2 : Except.error d1 = Except.error d2 := h
      cases h2
      exact hm.2 d1 rfl
  | ok d1 =>
    have hp1 := hm.1 d1 rfl
    have hf1 := hf d1 rfl
    constructor
    · intro d2 h
      have h2 : f d1 = Except.ok d2 := h
      rw [hf1.1 d2 h2, hp1]
    · intro d2 h
      have h2 : f d1 = Except.error d2 := h
      rw [hf1.2 d2 h2, hp1]

/-- Helper: processing one entry preserves the Category 1 init key —
whether it completes or raises. -/
theorem dcProcessEntry_preserves (d : DCDict) (ts : String) (e : DCEntry) :
    PreservesCat1 (dcProcessEntry d ts e) d := by
  have hk1 : dcKeyCat1Append ≠ dcKeyCat1 := by decide
  have hk2 : dcKeyCat2 ≠ dcKeyCat1 := by decide
  have hk3 : dcKeyCat3 ≠ dcKeyCat1 := by decide
  have hk4 : dcKeyCat4 ≠ dcKeyCat1 := by decide
  cases hp : e.parsed with
  | none =>
    simp only [dcProcessEntry, hp]
    constructor
    · intro d2 h
      have h2 : d = d2 := by
        simpa using h
      rw [← h2]
    · intro d2 h
      simp at h
  | some triple =>
    obtain ⟨x, y, vel⟩ := triple
    simp only [dcProcessEntry, hp]
    apply bind_preservesCat1 _ _ _ (dcStep_preserves _ _ _ _ hk1)
    intro d1 _
    apply bind_preservesCat1 _ _ _ (dcStep_preserves _ _ _ _ hk2)
    intro d2 _
    apply bind_preservesCat1 _ _ _ (dcStep_preserves _ _ _ _ hk3)
    intro d3 _
    exact dcStep_preserves _ _ _ _ hk4

/-- Helper: the entry loop preserves the Category 1 init key. -/
theorem dcProcessEntries_preserves (es : List DCEntry) (d : DCDict)
    (ts : String) : PreservesCat1 (dcProcessEntries d ts es) d := by
  induction es generalizing d with
  | nil =>
    constructor
    · intro d2 h
      have h2 : d = d2 := by
        simpa [dcProcessEntries] using h
      rw [← h2]
    · intro d2 h
      simp [dcProcessEntries] at h
  | cons e es ih =>
    simp only [dcProcessEntries]
    apply bind_preservesCat1 _ _ _ (dcProcessEntry_preserves d ts e)
    intro d1 _
    exact ih d1

/-- Helper: the per-file line loop preserves the Category 1 init key. -/
theorem dcProcessFileLines_preserves (ls : List DCLine) (d : DCDict)
    (ts : String) : PreservesCat1 (dcProcessFileLines d ts ls) d := by
  induction ls generalizing d ts with
  | nil =>
    constructor
    · intro d2 h
      have h2 : d = d2 := by
        simpa [dcProcessFileLines] using h
      rw [← h2]
    · intro d2 h
      simp [dcProcessFileLines] at h
  | cons l ls ih =>
    cases l with
    | blank => exact ih d ts
    | tsLine t => exact ih d t
    | objLine es =>
      simp only [dcProcessFileLines]
      apply bind_preservesCat1 _ _ _ (dcProcessEntries_preserves es d ts)
      intro d1 _
      exact ih d1 ts

/-- Helper: one whole file — swallowed exception included — preserves the
Category 1 init key's value. -/
theorem dcProcessFile_get (d : DCDict) (f : DCFile) :
    dcGet (dcProcessFile d f) dcKeyCat1 = dcGet d dcKeyCat1 := by
  obtain ⟨name, content⟩ := f
  cases content with
  | error e => rfl
  | ok lines =>
    show dcGet (dcSwallow (dcProcessFileLines d "" lines)) dcKeyCat1 =
      dcGet d dcKeyCat1
    cases h : dcProcessFileLines d "" lines with
    | ok d2 =>
      simpa [dcSwallow] using (dcProcessFileLines_preserves lines d "").1 d2 h
    | error d2 =>
      simpa [dcSwallow] using (dcProcessFileLines_preserves lines d "").2 d2 h

/-- Helper: the folder loop preserves the Category 1 init key's value. -/
theorem dcProcessFolder_get (files : List DCFile) (d : DCDict) :
    dcGet (dcProcessFolder d files) dcKeyCat1 = dcGet d dcKeyCat1 := by
  induction files generalizing d with
  | nil => rfl
  | cons f fs ih =>
    calc dcGet (dcProcessFolder (dcProcessFile d f) fs) dcKeyCat1
        = dcGet (dcProcessFile d f) dcKeyCat1 := ih (dcProcessFile d f)
      _ = dcGet d dcKeyCat1 := dcProcessFile_get d f

/-- Helper: the sort phase maps the Category 1 init key's list through
`sort_entries`. -/
theorem dcGet_sortDict_cat1 (d : DCDict) :
    dcGet (dcSortDict d) dcKeyCat1 = (dcGet d dcKeyCat1).map sort_entries := by
  unfold dcSortDict
  rw [dcGet_map_keyfix]
  · cases hd : dcGet d dcKeyCat1 <;>
      simp [show ¬dcKeyCat1 = dcKeyCat4 from by decide]
  · intro p
    by_cases hp : p.1 = dcKeyCat4 <;> simp [hp]

/-- C10: the Category 1 append targets the key
`"Category 1 (0 < y < 20 and velocity ≠ 0)"` while the dict was
initialized with `"Category 1 (y < 20 and velocity ≠ 0)"`; on any entry
satisfying the Category 1 predicate the lookup raises `KeyError` before
mutating anything, the entry loop and line loop stop there, the per-file
handler swallows the exception and the batch moves to the next file — and
the Category 1 init key's list is empty in every successful output of
`filter_radar_data`. -/
theorem c10_category1_keyerror :
    (dcKeyCat1Append ≠ dcKeyCat1 ∧ dcGet dcInit dcKeyCat1Append = none) ∧
    (∀ (d : DCDict) (ts raw : String) (x y vel : Int),
      dcGet d dcKeyCat1Append = none → y < 20 → vel ≠ 0 →
      dcProcessEntry d ts ⟨raw, some (x, y, vel)⟩ = Except.error d) ∧
    (∀ (d d2 : DCDict) (ts : String) (e : DCEntry) (es : List DCEntry),
      dcProcessEntry d ts e = Except.error d2 →
      dcProcessEntries d ts (e :: es) = Except.error d2) ∧
    (∀ (d d2 : DCDict) (ts : String) (es : List DCEntry)
        (ls : List DCLine),
      dcProcessEntries d ts es = Except.error d2 →
      dcProcessFileLines d ts (DCLine.objLine es :: ls) = Except.error d2) ∧
    (∀ (d d2 : DCDict) (name : String) (lines : List DCLine),
      dcProcessFileLines d "" lines = Except.error d2 →
      dcProcessFile d ⟨name, Except.ok lines⟩ = d2) ∧
    (∀ (d : DCDict) (f : DCFile) (fs : List DCFile),
      dcProcessFolder d (f :: fs) = dcProcessFolder (dcProcessFile d f) fs) ∧
    (∀ folder out, filter_radar_data folder = Except.ok out →
      dcGet out dcKeyCat1 = some []) := by
  refine ⟨⟨by decide, rfl⟩, ?_, ?_, ?_, ?_, fun d f fs => rfl, ?_⟩
  · intro d ts raw x y vel habsent hy hvel
    have hstep : dcStep d (decide (y < 20) && decide (vel ≠ 0))
        dcKeyCat1Append (y, ts, raw) = Except.error d := by
      simp [dcStep, dcAppend, hy, hvel, habsent]
    simp only [dcProcessEntry]
    rw [hstep]
    rfl
  · intro d d2 ts e es h
    simp only [dcProcessEntries]
    rw [h]
    rfl
  · intro d d2 ts es ls h
    simp only [dcProcessFileLines]
    rw [h]
    rfl
  · intro d d2 name lines h
    simp only [dcProcessFile]
    rw [h]
    rfl
  · intro folder out h
    cases folder with
    | none => simp [filter_radar_data] at h
    | some files =>
      simp only [filter_radar_data] at h
      by_cases htxt :
          (files.filter fun f => pyEndsWith f.name ".txt").isEmpty = true
      · rw [if_pos htxt] at h
        cases h
      · rw [if_neg htxt] at h
        simp only [Except.ok.injEq] at h
        rw [← h, dcGet_sortDict_cat1, dcProcessFolder_get]
        rfl

/-- C10 witness: on a concrete entry with `y = 5 < 20` and
`velocity = 3 ≠ 0` the Category 1 append raises and leaves the initial
dict untouched, and a concrete run of `filter_radar_data` over a file
containing that entry records no Category 1 item. -/
theorem c10_category1_keyerror_witness :
    dcProcessEntry dcInit "" ⟨"x=1, y=5, velocity=3", some (1, 5, 3)⟩ =
      Except.error dcInit ∧
    dcGet dcInit dcKeyCat1 = some [] :=
  ⟨c10_category1_keyerror.2.1 dcInit "" "x=1, y=5, velocity=3" 1 5 3 rfl
      (by decide) (by decide),
   c10_category1_keyerror.2.2.2.2.2.2
     (some [⟨"a.txt", Except.ok [DCLine.tsLine "2024-01-01 00:00:00.000",
       DCLine.objLine [⟨"x=1, y=5, velocity=3", some (1, 5, 3)⟩]]⟩])
     dcInit rfl⟩

end AsukaDC
